import Mathlib

/-!
Verification development for the `try-tts` repository: three near-identical
command-line utilities (`amazon_tts.py`, `azure_tts.py`, `google_tts.py`)
plus a shared helper module (`utils.py`) that read an SSML document, resolve
an output path, call a cloud text-to-speech provider, and persist the
returned MP3 bytes.

Modelling conventions:
* A `pathlib.Path` is embedded as its tuple of parts (`PyPath := List String`),
  the representation `pathlib` itself normalises to; `pathStr` renders the
  relative-path string form used in user-facing messages.
* File contents are either decoded UTF-8 text (`FileData.text`) or opaque
  bytes (`FileData.bytes`); the filesystem is a partial map from paths to
  contents plus a set of created directories.
* Each provider network call is an oracle value supplied to the run: the
  response the vendor SDK would have produced.  The scripts themselves are
  embedded as pure state transformers over the filesystem that also record
  exit code, stdout, stderr and the SSML payload actually submitted.
* Python exceptions become an error type threaded through `Except`/`Option`;
  the generic `except Exception` handler of each `main` corresponds to the
  catch-all branches below.
-/

/-- Parts of a `pathlib` path (relative posix paths; each part is one
path component, never containing a separator). -/
abbrev PyPath := List String

/-- Contents of a file: either a text file whose bytes are valid UTF-8,
carried in decoded form, or an opaque binary blob (audio output). -/
inductive FileData where
  | text (s : String)
  | bytes (b : List Nat)
deriving DecidableEq

/-- Filesystem state: a partial map from paths to file contents, and the
list of directories that exist (membership semantics; duplicates allowed). -/
structure Sys where
  files : PyPath → Option FileData
  dirs : List PyPath

/-- String form of a relative `pathlib` path, as interpolated into
user-facing messages (an empty path prints as `.`). -/
def pathStr : PyPath → String
  | [] => "."
  | [p] => p
  | p :: rest => p ++ "/" ++ pathStr rest

/-- Embedding of `pathlib.PurePath.name`: the final path component, or the
empty string for an empty path. -/
def pyName (p : PyPath) : String :=
  (p.getLast?).getD ""

/-- Index of the last occurrence of a dot in a list of characters
(embedding Python `str.rfind` for the single character case). -/
def rfindDot (cs : List Char) : Option Nat :=
  ((List.range cs.length).filter (fun i => cs.getD i ' ' = '.')).getLast?

/-- Embedding of `pathlib.PurePath.stem` applied to a name: drop the final
suffix when the last dot sits strictly inside the name (`0 < i < len - 1`). -/
def pyStem (name : String) : String :=
  match rfindDot name.data with
  | some i =>
    if 0 < i ∧ i < name.data.length - 1 then String.mk (name.data.take i) else name
  | none => name

/-- Embedding of Python `str.replace(old, new)` for a single-character
pattern: every occurrence of `old` is replaced by `new`. -/
def pyReplaceChar (s : String) (old new : Char) : String :=
  String.mk (s.data.map (fun c => if c = old then new else c))

/-- List of all ancestor directories of a path (each non-empty prefix). -/
def ancestors (q : PyPath) : List PyPath :=
  (List.range q.length).map (fun i => q.take (i + 1))

/-- Embedding of `output_path.parent.mkdir(parents=True, exist_ok=True)`:
all ancestors of the parent of `p` are recorded as existing directories. -/
def mkdirParents (s : Sys) (p : PyPath) : Sys :=
  { s with dirs := ancestors p.dropLast ++ s.dirs }

/-- Embedding of a binary-mode write (`Path.write_bytes` /
`open(path, "wb")`): the file at `p` now holds exactly `b`, truncating any
previous contents; other files untouched. -/
def writeBytes (s : Sys) (p : PyPath) (b : List Nat) : Sys :=
  { s with files := fun q => if q = p then some (FileData.bytes b) else s.files q }

/-- Composite writer of the spec's section 4.4: create the missing parent
directories, then write the bytes (the order used by both `google_tts.py`
and `amazon_tts.py`). -/
def write_audio (s : Sys) (p : PyPath) (b : List Nat) : Sys :=
  writeBytes (mkdirParents s p) p b

/-- Python truthiness of an optional string-valued environment variable:
`None` and the empty string are falsy. -/
def truthy : Option String → Bool
  | none => false
  | some s => !s.isEmpty

/-- Exceptions raised by the embedded scripts.  `fileNotFound` corresponds
to Python `FileNotFoundError` (caught by its own handler in each `main`);
`valueError` and `generic` are caught by the `except Exception` handler. -/
inductive TtsErr where
  | fileNotFound (msg : String)
  | valueError (msg : String)
  | generic (msg : String)
deriving DecidableEq

/-- Message written to stderr by the two `except` branches of each `main`. -/
def mainErrMsg : TtsErr → String
  | TtsErr.fileNotFound m => "エラー: " ++ m
  | TtsErr.valueError m => "エラーが発生しました: " ++ m
  | TtsErr.generic m => "エラーが発生しました: " ++ m

namespace utils

/-- Embedding of `utils.generate_output_filename` (a textually identical
copy also lives in `google_tts.py`): stem of the input file, model name with
path separators replaced by dashes, joined under `data/audios` with an
`.mp3` suffix. -/
def generate_output_filename (input_file : PyPath) (model_name : String) : PyPath :=
  let base_name := pyStem (pyName input_file)
  let safe_model_name := pyReplaceChar (pyReplaceChar model_name '/' '-') '\\' '-'
  let output_filename := base_name ++ "_" ++ safe_model_name ++ ".mp3"
  ["data", "audios"] ++ [output_filename]

/-- Embedding of `utils.read_ssml_file`: a missing path raises
`FileNotFoundError` with a message echoing the path; an existing UTF-8 text
file is returned in full as decoded text; a non-UTF-8 (binary) file raises a
decoding error that lands in the generic exception category. -/
def read_ssml_file (files : PyPath → Option FileData) (file_path : PyPath) :
    Except TtsErr String :=
  match files file_path with
  | none => Except.error (TtsErr.fileNotFound ("SSMLファイルが見つかりません: " ++ pathStr file_path))
  | some (FileData.text s) => Except.ok s
  | some (FileData.bytes _) => Except.error (TtsErr.generic "utf-8 decode error")

end utils

/-- Output-path resolution, identical in the three `main` functions:
an explicit `--output` path is returned unchanged, otherwise the filename is
auto-generated from the input file and the model name. -/
def resolve (input_file : PyPath) (model_name : String) (explicit : Option PyPath) : PyPath :=
  match explicit with
  | some o => o
  | none => utils.generate_output_filename input_file model_name

/-- Opening brace character (written via its code point to keep braces out
of the source text). -/
def lbrace : Char := Char.ofNat 123

/-- Closing brace character. -/
def rbrace : Char := Char.ofNat 125

/-- Characters of the only keyword argument passed to `str.format` in
`azure_tts.py` (`ssml_text.format(voice_name=voice_name)`). -/
def voiceNameChars : List Char := "voice_name".data

/-- Failures of the `str.format` call of `azure_tts.py` (all are Python
`ValueError` / `KeyError` / `IndexError` / `TypeError` and land in the
generic exception category of the caller; the distinctions below only name
the failing stage).  `attrAccess` is the one deliberately unmodelled
corner: Python resolves an attribute trailer such as `voice_name.upper`
through the object protocol and renders reprs that contain the object's
memory address, which is not a pure function of the call's inputs, so a
shallow embedding cannot express its result; it is classified as a failure
here and every theorem below excludes it by hypothesis. -/
inductive FmtErr where
  | singleClose
  | unmatchedOpen
  | unknownField (fld : List Char)
  | fieldName
  | attrAccess (name : List Char)
  | index
  | conversion
  | spec
deriving DecidableEq

/-- Prepend a character to the payload of a successful scan result. -/
def consResult (c : Char) : Except FmtErr (List Char) → Except FmtErr (List Char)
  | Except.ok t => Except.ok (c :: t)
  | Except.error e => Except.error e

/-- Prepend a character list to the payload of a successful scan result. -/
def appendResult (v : List Char) : Except FmtErr (List Char) → Except FmtErr (List Char)
  | Except.ok t => Except.ok (v ++ t)
  | Except.error e => Except.error e

/-- Single-quote character (Python repr quoting). -/
def squote : Char := Char.ofNat 39

/-- Python `repr` / `ascii` of a string value, modelled for strings that
contain no quotes, backslashes or unprintable characters (true of every
voice identifier this program can pass): the value wrapped in single
quotes.  Python would additionally escape such characters. -/
def pyRepr (s : List Char) : List Char :=
  squote :: (s ++ [squote])

/-- Split the text of a replacement field into field name, optional
conversion character and optional format spec, following CPython
`parse_field`: the first top-level `!` introduces the conversion, which
must be followed by `:` or the end of the field; the first top-level `:`
introduces the format spec; a `[` ... `]` run belongs to the field name and
hides any `!` or `:` inside it (the `Bool` argument is true inside such a
run); a `{` in the field name and an unterminated `[` are errors. -/
def splitFieldGo : Bool → List Char → Except FmtErr (List Char × Option Char × Option (List Char))
  | true, [] => Except.error FmtErr.fieldName
  | false, [] => Except.ok ([], none, none)
  | true, c :: rest =>
    if c = ']' then
      match splitFieldGo false rest with
      | Except.ok (name, conv, spec) => Except.ok (c :: name, conv, spec)
      | Except.error e => Except.error e
    else
      match splitFieldGo true rest with
      | Except.ok (name, conv, spec) => Except.ok (c :: name, conv, spec)
      | Except.error e => Except.error e
  | false, c :: rest =>
    if c = lbrace then Except.error FmtErr.fieldName
    else if c = '[' then
      match splitFieldGo true rest with
      | Except.ok (name, conv, spec) => Except.ok (c :: name, conv, spec)
      | Except.error e => Except.error e
    else if c = '!' then
      match rest with
      | [] => Except.error FmtErr.conversion
      | cv :: rest2 =>
        match rest2 with
        | [] => Except.ok ([], some cv, none)
        | c2 :: rest3 =>
          if c2 = ':' then Except.ok ([], some cv, some rest3)
          else Except.error FmtErr.conversion
    else if c = ':' then Except.ok ([], none, some rest)
    else
      match splitFieldGo false rest with
      | Except.ok (name, conv, spec) => Except.ok (c :: name, conv, spec)
      | Except.error e => Except.error e

/-- Numeric value of a run of decimal digits. -/
def digitsToNat (ds : List Char) : Nat :=
  ds.foldl (fun n c => n * 10 + (c.toNat - 48)) 0

/-- An index key `[key]` is an integer exactly when it is a non-empty run
of ASCII digits (a string key on a string value raises `TypeError` in
Python; an empty key is a `ValueError`). -/
def parseIndexKey (key : List Char) : Option Nat :=
  if key ≠ [] ∧ key.all (fun c => c.isDigit) then some (digitsToNat key)
  else none

/-- Apply the trailers following the base field name, as CPython's field
name iterator does: a chain of `[digits]` items indexes the current string
(each yields a one-character string; out-of-range or non-integer keys
fail); a `.attr` trailer is the unmodelled `attrAccess` corner (see
`FmtErr`); anything else after a `]` is an error.  The first argument is
`none` between trailers and `some acc` inside a bracketed key, `acc`
holding the key read so far in reverse. -/
def applyTrailers : Option (List Char) → List Char → List Char → Except FmtErr (List Char)
  | none, cur, [] => Except.ok cur
  | some _, _, [] => Except.error FmtErr.fieldName
  | none, cur, c :: rest =>
    if c = '.' then Except.error (FmtErr.attrAccess rest)
    else if c = '[' then applyTrailers (some []) cur rest
    else Except.error FmtErr.fieldName
  | some acc, cur, c :: rest =>
    if c = ']' then
      match parseIndexKey acc.reverse with
      | some n =>
        match cur.get? n with
        | some ch => applyTrailers none [ch] rest
        | none => Except.error FmtErr.index
      | none => Except.error FmtErr.index
    else applyTrailers (some (c :: acc)) cur rest

/-- Apply a conversion specifier to a string value: `s` is `str` (the
identity here), `r` and `a` are `repr` / `ascii`; anything else is a
`ValueError`. -/
def applyConversion (cur : List Char) : Option Char → Except FmtErr (List Char)
  | none => Except.ok cur
  | some c =>
    if c = 's' then Except.ok cur
    else if c = 'r' then Except.ok (pyRepr cur)
    else if c = 'a' then Except.ok (pyRepr cur)
    else Except.error FmtErr.conversion

/-- Alignment characters of the format mini-language. -/
def isAlignChar (c : Char) : Bool :=
  c == '<' || c == '>' || c == '^' || c == '='

/-- Final stage of `format(value, spec)` for a `str` value: parse the type
code (at most one remaining character), reject everything a string format
rejects (sign, alternate form, `=` alignment, thousands separators, any
type code other than `s`), then truncate to the precision and pad to the
width with the fill character (default space, default left alignment;
centring puts the smaller half of the padding on the left, as CPython
does). -/
def finishSpec (cur : List Char) (align : Option Char) (sign alternate : Bool)
    (fill : Option Char) (width : Option Nat) (precision : Option Nat)
    (thousands : Bool) (rest : List Char) : Except FmtErr (List Char) :=
  match rest with
  | _ :: _ :: _ => Except.error FmtErr.spec
  | _ =>
    let ptype : Option Char := rest.head?
    if ptype ≠ none ∧ ptype ≠ some 's' then Except.error FmtErr.spec
    else if sign then Except.error FmtErr.spec
    else if alternate then Except.error FmtErr.spec
    else if align = some '=' then Except.error FmtErr.spec
    else if thousands then Except.error FmtErr.spec
    else
      let s1 := match precision with
        | some p => cur.take p
        | none => cur
      match width with
      | none => Except.ok s1
      | some w =>
        if w ≤ s1.length then Except.ok s1
        else
          let pad := w - s1.length
          let fc := fill.getD ' '
          match align.getD '<' with
          | '>' => Except.ok (List.replicate pad fc ++ s1)
          | '^' => Except.ok (List.replicate (pad / 2) fc ++ s1 ++
              List.replicate (pad - pad / 2) fc)
          | _ => Except.ok (s1 ++ List.replicate pad fc)

/-- Embedding of `format(value, spec)` for a `str` value (CPython
`parse_internal_render_format_spec` plus `format_string_internal`):
`[[fill]align][sign][#][0][width][, or _][.precision][type]`.  A leading
`0` with no explicit fill sets the fill to `0` without changing the
alignment (Python 3.10+ string behaviour); a `.` with no digits is an
error.  A brace inside the spec is a nested replacement field; these are
not expanded and are classified as failures — extensionally faithful for
every voice identifier this program can pass, each of which also fails in
Python (the nested lookup fails, or the substituted text is an invalid
specifier, e.g. `ja-JP-NanamiNeural`). -/
def applySpec (cur : List Char) (spec : List Char) : Except FmtErr (List Char) :=
  if spec.any (fun c => c == lbrace || c == rbrace) then Except.error FmtErr.spec
  else
    match (match spec with
      | c1 :: c2 :: rest =>
        if isAlignChar c2 then (some c1, some c2, rest)
        else if isAlignChar c1 then (none, some c1, c2 :: rest)
        else (none, none, spec)
      | [c1] => if isAlignChar c1 then (none, some c1, ([] : List Char)) else (none, none, spec)
      | [] => (none, none, ([] : List Char)) : Option Char × Option Char × List Char) with
    | (fill0, align, rest0) =>
      match (match rest0 with
        | c :: rest => if c == '+' || c == '-' || c == ' ' then (true, rest) else (false, rest0)
        | [] => (false, ([] : List Char)) : Bool × List Char) with
      | (sign, rest1) =>
        match (match rest1 with
          | c :: rest => if c == '#' then (true, rest) else (false, rest1)
          | [] => (false, ([] : List Char)) : Bool × List Char) with
        | (alternate, rest2) =>
          match (match rest2 with
            | c :: rest => if c == '0' && fill0.isNone then (some '0', rest) else (fill0, rest2)
            | [] => (fill0, ([] : List Char)) : Option Char × List Char) with
          | (fill, rest3) =>
            let wDigits := rest3.takeWhile (fun c => c.isDigit)
            let width : Option Nat :=
              if wDigits.isEmpty then none else some (digitsToNat wDigits)
            let rest4 := rest3.drop wDigits.length
            match (match rest4 with
              | c :: rest => if c == ',' || c == '_' then (true, rest) else (false, rest4)
              | [] => (false, ([] : List Char)) : Bool × List Char) with
            | (thousands, rest5) =>
              match rest5 with
              | '.' :: rest6 =>
                let pDigits := rest6.takeWhile (fun c => c.isDigit)
                if pDigits.isEmpty then Except.error FmtErr.spec
                else finishSpec cur align sign alternate fill width
                  (some (digitsToNat pDigits)) thousands (rest6.drop pDigits.length)
              | _ => finishSpec cur align sign alternate fill width none thousands rest5

/-- Interpret one replacement field of the `str.format` call of
`azure_tts.py` (only keyword argument: `voice_name`, a string): split it
into name, conversion and spec; resolve the base name (anything other than
`voice_name` fails — a `KeyError` for other names, an `IndexError` for the
empty and all-digit auto-numbering forms, since the call passes no
positional arguments); apply the trailers, the conversion and the format
spec. -/
def interpretField (v field : List Char) : Except FmtErr (List Char) :=
  match splitFieldGo false field with
  | Except.error e => Except.error e
  | Except.ok (name, conv, spec) =>
    let base := name.takeWhile (fun c => !(c == '.') && !(c == '['))
    if base = voiceNameChars then
      match applyTrailers none v (name.drop base.length) with
      | Except.error e => Except.error e
      | Except.ok cur =>
        match applyConversion cur conv with
        | Except.error e => Except.error e
        | Except.ok cur2 =>
          match spec with
          | none => Except.ok cur2
          | some sp => applySpec cur2 sp
    else Except.error (FmtErr.unknownField base)

/-- Scanner for the `str.format` call of `azure_tts.py`, following
CPython's markup iterator: literal text with doubled-brace escapes, a lone
closing brace in literal text is an error, and a `{` opens a replacement
field that ends at the matching `}` (braces inside the field, which can
only occur in a format spec, are depth-counted exactly as CPython does).
The first argument is the replacement value for the `voice_name` field;
the `Option` argument is `none` in literal mode and `some (acc, depth)`
inside a field, `acc` holding the field characters read so far in reverse
and `depth` the nesting depth of unclosed inner braces. -/
def formatGo (v : List Char) : Option (List Char × Nat) → List Char → Except FmtErr (List Char)
  | none, [] => Except.ok []
  | some _, [] => Except.error FmtErr.unmatchedOpen
  | none, c :: rest =>
    if c = lbrace then
      match rest with
      | [] => Except.error FmtErr.unmatchedOpen
      | c2 :: rest2 =>
        if c2 = lbrace then consResult lbrace (formatGo v none rest2)
        else if c2 = rbrace then
          match interpretField v [] with
          | Except.ok repl => appendResult repl (formatGo v none rest2)
          | Except.error e => Except.error e
        else formatGo v (some ([c2], 0)) rest2
    else if c = rbrace then
      match rest with
      | [] => Except.error FmtErr.singleClose
      | c2 :: rest2 =>
        if c2 = rbrace then consResult rbrace (formatGo v none rest2)
        else Except.error FmtErr.singleClose
    else consResult c (formatGo v none rest)
  | some (acc, depth), c :: rest =>
    if c = rbrace then
      if depth = 0 then
        match interpretField v acc.reverse with
        | Except.ok repl => appendResult repl (formatGo v none rest)
        | Except.error e => Except.error e
      else formatGo v (some (c :: acc, depth - 1)) rest
    else if c = lbrace then formatGo v (some (c :: acc, depth + 1)) rest
    else formatGo v (some (c :: acc, depth)) rest

/-- Embedding of `ssml_text.format(voice_name=voice_name)`: scan `s`
replacing each `voice_name` replacement field with the result of
interpreting it against `v`. -/
def pyFormat (v s : List Char) : Except FmtErr (List Char) :=
  formatGo v none s

/-- Result of the Azure synthesis request as surfaced by the vendor SDK:
either completed with audio, or canceled with a structured reason and an
error-details string (empty when the SDK supplies none). -/
inductive AzureCancelReason where
  | error
  | endOfStream
  | cancelledByUser
deriving DecidableEq

/-- Outcome of `speech_synthesizer.speak_ssml_async(...).get()`. -/
inductive AzureResult where
  | completed (audio : List Nat)
  | canceled (reason : AzureCancelReason) (errorDetails : String)
deriving DecidableEq

/-- Printable form of a cancellation reason (interpolated into the
cancellation message). -/
def cancelReasonStr : AzureCancelReason → String
  | AzureCancelReason.error => "CancellationReason.Error"
  | AzureCancelReason.endOfStream => "CancellationReason.EndOfStream"
  | AzureCancelReason.cancelledByUser => "CancellationReason.CancelledByUser"

/-- Outcome of one provider-facing synthesis step: the exception raised (if
any), the filesystem afterwards, the stdout lines printed, and the SSML
payload submitted to the provider (`none` when the provider was never
contacted). -/
structure SynthOut where
  err : Option TtsErr
  sys : Sys
  stdout : List String
  submitted : Option String

/-- Approximate message of a `str.format` failure (the exact Python wording
is not load-bearing anywhere; only the failure category is). -/
def fmtErrMsg : FmtErr → String
  | FmtErr.singleClose => "Single \x7d encountered in format string"
  | FmtErr.unmatchedOpen => "expected \x7d before end of string"
  | FmtErr.unknownField fld => String.mk fld
  | FmtErr.fieldName => "bad field name in format string"
  | FmtErr.attrAccess name => "attribute access in format field: " ++ String.mk name
  | FmtErr.index => "bad index in format field"
  | FmtErr.conversion => "bad conversion specifier"
  | FmtErr.spec => "bad format specifier"

/-- Credentials error message of `azure_tts.synthesize_ssml`. -/
def azureCredsMsg : String :=
  "Azure認証情報が設定されていません。AZURE_SPEECH_KEYとAZURE_SPEECH_REGIONを.envファイルに設定してください。"

/-- Result of one full run of a script body: exit code, stdout lines,
stderr lines, final filesystem, and the SSML submitted to the provider
(`none` when the provider was never contacted). -/
structure RunOut where
  exitCode : Nat
  stdout : List String
  stderr : List String
  sys : Sys
  submitted : Option String

/-- Shared skeleton of the three `main` commands (the `try`/`except` bodies
of `azure_tts.py`, `google_tts.py` and `amazon_tts.py` are textually
identical up to the synthesis call): read the SSML file, resolve the output
path (echoing it when auto-generated), run the provider-specific synthesis
step, and map any raised exception to exit code 1 with the message on
stderr, otherwise exit code 0. -/
def runMain (s : Sys) (input_file : PyPath) (output : Option PyPath) (model : String)
    (synth : String → PyPath → Sys → SynthOut) : RunOut :=
  match utils.read_ssml_file s.files input_file with
  | Except.error e =>
    { exitCode := 1
      stdout := ["SSMLファイルを読み込んでいます: " ++ pathStr input_file]
      stderr := [mainErrMsg e]
      sys := s
      submitted := none }
  | Except.ok ssml_text =>
    let out := resolve input_file model output
    let headMsgs := ["SSMLファイルを読み込んでいます: " ++ pathStr input_file] ++
      (match output with
       | none => ["出力ファイル名: " ++ pathStr out]
       | some _ => [])
    let r := synth ssml_text out s
    match r.err with
    | some e =>
      { exitCode := 1
        stdout := headMsgs ++ r.stdout
        stderr := [mainErrMsg e]
        sys := r.sys
        submitted := r.submitted }
    | none =>
      { exitCode := 0
        stdout := headMsgs ++ r.stdout ++ ["✓ 処理が完了しました"]
        stderr := []
        sys := r.sys
        submitted := r.submitted }

namespace azure_tts

/-- Embedding of `azure_tts.synthesize_ssml`.  Order follows the source:
credentials check, placeholder interpolation via `str.format`, output
directory creation, then the synthesis call whose `AudioOutputConfig`
points the SDK at the output file.  The SDK (not this script) writes the
file: on a completed result it holds the synthesized audio.  Modelled from
the spec for the cancellation case: the provider call fails after the
output file has been opened, leaving a zero-byte file at the output path
(spec section 7, the truncate-then-fail gap).  A cancellation raises only
when its reason is `Error` and its error details are non-empty; any other
cancellation merely prints messages and returns normally. -/
def synthesize_ssml (key region : Option String) (world : AzureResult)
    (ssml_text voice_name : String) (output_path : PyPath) (s : Sys) : SynthOut :=
  if !truthy key || !truthy region then
    { err := some (TtsErr.valueError azureCredsMsg), sys := s, stdout := [], submitted := none }
  else
    match pyFormat voice_name.data ssml_text.data with
    | Except.error e =>
      { err := some (TtsErr.generic (fmtErrMsg e)), sys := s, stdout := [], submitted := none }
    | Except.ok formatted_ssml =>
      let s1 := mkdirParents s output_path
      match world with
      | AzureResult.completed audio =>
        { err := none
          sys := writeBytes s1 output_path audio
          stdout := ["✓ オーディオファイルを保存しました: " ++ pathStr output_path]
          submitted := some (String.mk formatted_ssml) }
      | AzureResult.canceled r d =>
        let s2 := writeBytes s1 output_path []
        if r = AzureCancelReason.error then
          if !d.isEmpty then
            { err := some (TtsErr.generic ("音声合成エラー: " ++ d))
              sys := s2
              stdout := ["音声合成がキャンセルされました: " ++ cancelReasonStr r,
                "エラー詳細: " ++ d]
              submitted := some (String.mk formatted_ssml) }
          else
            { err := none
              sys := s2
              stdout := ["音声合成がキャンセルされました: " ++ cancelReasonStr r,
                "エラー詳細: " ++ d]
              submitted := some (String.mk formatted_ssml) }
        else
          { err := none
            sys := s2
            stdout := ["音声合成がキャンセルされました: " ++ cancelReasonStr r]
            submitted := some (String.mk formatted_ssml) }

/-- Embedding of the `azure_tts.main` command body (`voice` is the string
value of the selected `AzureVoice` member). -/
def main (key region : Option String) (world : AzureResult) (s : Sys)
    (input_file : PyPath) (output : Option PyPath) (voice : String) : RunOut :=
  runMain s input_file output voice
    (fun ssml_text out st => synthesize_ssml key region world ssml_text voice out st)

end azure_tts

namespace google_tts

/-- Alias: `google_tts.py` carries a textually identical copy of
`utils.generate_output_filename`. -/
def generate_output_filename : PyPath → String → PyPath :=
  utils.generate_output_filename

/-- Alias: `google_tts.py` carries a textually identical copy of
`utils.read_ssml_file`. -/
def read_ssml_file : (PyPath → Option FileData) → PyPath → Except TtsErr String :=
  utils.read_ssml_file

/-- Embedding of `google_tts.synthesize_ssml`: submit the SSML unmodified;
a raised provider error (`world = .error e`) leaves the filesystem
untouched; on success the parent directories are created and the
`audio_content` bytes of the response are written to the output file. -/
def synthesize_ssml (world : Except String (List Nat))
    (ssml_text voice_name : String) (output_path : PyPath) (s : Sys) : SynthOut :=
  match world with
  | Except.error e =>
    { err := some (TtsErr.generic e), sys := s, stdout := [], submitted := some ssml_text }
  | Except.ok audio =>
    { err := none
      sys := write_audio s output_path audio
      stdout := ["✓ オーディオファイルを保存しました: " ++ pathStr output_path]
      submitted := some ssml_text }

/-- Embedding of the `google_tts.main` command body. -/
def main (world : Except String (List Nat)) (s : Sys)
    (input_file : PyPath) (output : Option PyPath) (model : String) : RunOut :=
  runMain s input_file output model
    (fun ssml_text out st => synthesize_ssml world ssml_text model out st)

end google_tts

namespace amazon_tts

/-- Embedding of `amazon_tts.synthesize_ssml`.  The oracle is the Polly
response: a raised error, or a response whose `AudioStream` field may be
absent.  Directory creation happens before the `AudioStream` check, so a
missing payload creates the directory but writes no file and raises a
generic exception. -/
def synthesize_ssml (world : Except String (Option (List Nat)))
    (ssml_text voice_name : String) (output_path : PyPath) (s : Sys) : SynthOut :=
  match world with
  | Except.error e =>
    { err := some (TtsErr.generic e), sys := s, stdout := [], submitted := some ssml_text }
  | Except.ok response =>
    let s1 := mkdirParents s output_path
    match response with
    | some audio =>
      { err := none
        sys := writeBytes s1 output_path audio
        stdout := ["✓ オーディオファイルを保存しました: " ++ pathStr output_path]
        submitted := some ssml_text }
    | none =>
      { err := some (TtsErr.generic "音声データが取得できませんでした")
        sys := s1
        stdout := []
        submitted := some ssml_text }

/-- Embedding of the `amazon_tts.main` command body (`model` is the string
value of the selected `PollyVoice` member). -/
def main (world : Except String (Option (List Nat))) (s : Sys)
    (input_file : PyPath) (output : Option PyPath) (model : String) : RunOut :=
  runMain s input_file output model
    (fun ssml_text out st => synthesize_ssml world ssml_text model out st)

end amazon_tts

/-- Pointwise effect of the two chained `str.replace` calls of
`generate_output_filename` on a single character. -/
def sanitizeChar (c : Char) : Char :=
  if c = '/' then '-' else if c = '\\' then '-' else c

theorem safeModel_data (m : String) :
    (pyReplaceChar (pyReplaceChar m '/' '-') '\\' '-').data = m.data.map sanitizeChar := by
  show (m.data.map _).map _ = _
  rw [List.map_map]
  apply List.map_congr_left
  intro c _
  by_cases h1 : c = '/'
  · subst h1; rfl
  · by_cases h2 : c = '\\'
    · subst h2; rfl
    · simp [Function.comp, sanitizeChar, h1, h2]

theorem sanitizeChar_ne_sep (c : Char) : sanitizeChar c ≠ '/' ∧ sanitizeChar c ≠ '\\' := by
  unfold sanitizeChar
  by_cases h1 : c = '/'
  · simp [h1]
  · by_cases h2 : c = '\\'
    · simp [h1, h2]
    · simp [h1, h2]
  
theorem safeModel_id_of_no_sep (m : String) (h1 : '/' ∉ m.data) (h2 : '\\' ∉ m.data) :
    pyReplaceChar (pyReplaceChar m '/' '-') '\\' '-' = m := by
  apply String.ext
  rw [safeModel_data]
  have : m.data.map sanitizeChar = m.data.map id := by
    apply List.map_congr_left
    intro c hc
    have hc1 : c ≠ '/' := fun e => h1 (e ▸ hc)
    have hc2 : c ≠ '\\' := fun e => h2 (e ▸ hc)
    simp [sanitizeChar, hc1, hc2]
  rw [this, List.map_id]

/-- Claim C3: for every input path `p` with stem `s` and every model name
`m` containing no `/` and no `\`, resolving the output path with no explicit
output returns exactly the path `data/audios/\x7bs\x7d_\x7bm\x7d.mp3`, both
as a parts tuple and in rendered string form. -/
theorem output_path_auto_generation (p : PyPath) (m : String)
    (h1 : '/' ∉ m.data) (h2 : '\\' ∉ m.data) :
    resolve p m none = ["data", "audios", pyStem (pyName p) ++ "_" ++ m ++ ".mp3"] ∧
    pathStr (resolve p m none) =
      "data/audios/" ++ (pyStem (pyName p) ++ "_" ++ m ++ ".mp3") := by
  have hs : pyReplaceChar (pyReplaceChar m '/' '-') '\\' '-' = m :=
    safeModel_id_of_no_sep m h1 h2
  constructor
  · show utils.generate_output_filename p m = _
    unfold utils.generate_output_filename
    rw [hs]
    rfl
  · show pathStr (utils.generate_output_filename p m) = _
    unfold utils.generate_output_filename
    rw [hs]
    rfl

/-- Witness for claim C3 at the concrete input of the spec's end-to-end
scenario. -/
theorem output_path_auto_generation_witness :
    resolve ["data", "ssmls", "fish-intro.ssml"] "ja-JP-Chirp3-HD-Zephyr" none =
      ["data", "audios", "fish-intro_ja-JP-Chirp3-HD-Zephyr.mp3"] ∧
    pathStr (resolve ["data", "ssmls", "fish-intro.ssml"] "ja-JP-Chirp3-HD-Zephyr" none) =
      "data/audios/fish-intro_ja-JP-Chirp3-HD-Zephyr.mp3" := by
  have h := output_path_auto_generation ["data", "ssmls", "fish-intro.ssml"]
    "ja-JP-Chirp3-HD-Zephyr" (by decide) (by decide)
  exact ⟨h.1.trans (by decide), h.2.trans (by decide)⟩

/-- Claim C4: for every model name containing `/` or `\`, the sanitization
inside the auto-generated output filename replaces each such character
individually with `-` (length is preserved, so two adjacent separators
become two dashes, never collapsed), leaves every other character in place,
and the sanitized model-name component contains no `/` and no `\`; the
auto-generated filename embeds exactly this sanitized component. -/
theorem model_name_sanitization (m : String)
    (hsep : '/' ∈ m.data ∨ '\\' ∈ m.data) :
    (pyReplaceChar (pyReplaceChar m '/' '-') '\\' '-').data.length = m.data.length ∧
    (∀ i (h : i < m.data.length)
        (h2 : i < (pyReplaceChar (pyReplaceChar m '/' '-') '\\' '-').data.length),
      (m.data.get ⟨i, h⟩ = '/' ∨ m.data.get ⟨i, h⟩ = '\\') →
      (pyReplaceChar (pyReplaceChar m '/' '-') '\\' '-').data.get ⟨i, h2⟩ = '-') ∧
    (∀ i (h : i < m.data.length)
        (h2 : i < (pyReplaceChar (pyReplaceChar m '/' '-') '\\' '-').data.length),
      m.data.get ⟨i, h⟩ ≠ '/' → m.data.get ⟨i, h⟩ ≠ '\\' →
      (pyReplaceChar (pyReplaceChar m '/' '-') '\\' '-').data.get ⟨i, h2⟩ =
        m.data.get ⟨i, h⟩) ∧
    '/' ∉ (pyReplaceChar (pyReplaceChar m '/' '-') '\\' '-').data ∧
    '\\' ∉ (pyReplaceChar (pyReplaceChar m '/' '-') '\\' '-').data ∧
    (∀ p : PyPath, utils.generate_output_filename p m =
      ["data", "audios",
        pyStem (pyName p) ++ "_" ++ pyReplaceChar (pyReplaceChar m '/' '-') '\\' '-' ++ ".mp3"]) := by
  refine ⟨?_, ?_, ?_, ?_, ?_, ?_⟩
  · rw [safeModel_data, List.length_map]
  · intro i h h2 hc
    have hmap := safeModel_data m
    have : (pyReplaceChar (pyReplaceChar m '/' '-') '\\' '-').data.get ⟨i, h2⟩ =
        sanitizeChar (m.data.get ⟨i, h⟩) := by
      simp only [List.get_eq_getElem, hmap, List.getElem_map]
    rw [this]
    rcases hc with hc | hc <;> rw [hc] <;> rfl
  · intro i h h2 hc1 hc2
    have hmap := safeModel_data m
    have : (pyReplaceChar (pyReplaceChar m '/' '-') '\\' '-').data.get ⟨i, h2⟩ =
        sanitizeChar (m.data.get ⟨i, h⟩) := by
      simp only [List.get_eq_getElem, hmap, List.getElem_map]
    rw [this]
    simp only [List.get_eq_getElem] at hc1 hc2
    simp [sanitizeChar, hc1, hc2]
  · rw [safeModel_data]
    intro hmem
    rcases List.mem_map.mp hmem with ⟨c, _, hc⟩
    exact (sanitizeChar_ne_sep c).1 hc
  · rw [safeModel_data]
    intro hmem
    rcases List.mem_map.mp hmem with ⟨c, _, hc⟩
    exact (sanitizeChar_ne_sep c).2 hc
  · intro p
    rfl

/-- Witness for claim C4: a model name with adjacent `/` and `\` becomes two
dashes, and the auto-generated filename embeds the sanitized component. -/
theorem model_name_sanitization_witness :
    pyReplaceChar (pyReplaceChar "a/\\b" '/' '-') '\\' '-' = "a--b" ∧
    utils.generate_output_filename ["x.ssml"] "a/\\b" =
      ["data", "audios", "x_a--b.mp3"] ∧
    '/' ∉ (pyReplaceChar (pyReplaceChar "a/\\b" '/' '-') '\\' '-').data := by
  have h := model_name_sanitization "a/\\b" (Or.inl (by decide))
  exact ⟨by decide, (h.2.2.2.2.2 ["x.ssml"]).trans (by decide), h.2.2.2.1⟩

/-- Claim C5: for every non-null explicit output path, every input path and
every model name, output-path resolution returns the explicit path
unchanged. -/
theorem explicit_output_unchanged (p : PyPath) (m : String) (o : PyPath) :
    resolve p m (some o) = o :=
  rfl

/-- Claim C9: output-path resolution is a pure total function: for every
input path and every model name (including the empty string and arbitrary
characters) it returns the fully characterized result below, and with an
explicit output it returns that output; there is no failure mode. -/
theorem resolve_total (p : PyPath) (m : String) :
    resolve p m none =
      ["data", "audios",
        pyStem (pyName p) ++ "_" ++ pyReplaceChar (pyReplaceChar m '/' '-') '\\' '-' ++ ".mp3"] ∧
    ∀ o, resolve p m (some o) = o :=
  ⟨rfl, fun _ => rfl⟩

/-- Claim C6: the SSML reader fails with a file-not-found error whose
message echoes the path exactly when the path does not exist at call time,
and for every existing readable UTF-8 text file it returns the file's exact
contents decoded as UTF-8. -/
theorem read_ssml_file_contract (files : PyPath → Option FileData) (p : PyPath) :
    (files p = none →
      utils.read_ssml_file files p =
        Except.error (TtsErr.fileNotFound ("SSMLファイルが見つかりません: " ++ pathStr p))) ∧
    (∀ msg, utils.read_ssml_file files p = Except.error (TtsErr.fileNotFound msg) →
      files p = none) ∧
    (∀ t, files p = some (FileData.text t) →
      utils.read_ssml_file files p = Except.ok t) := by
  refine ⟨?_, ?_, ?_⟩
  · intro h
    simp [utils.read_ssml_file, h]
  · intro msg h
    unfold utils.read_ssml_file at h
    match hf : files p with
    | none => rfl
    | some (FileData.text t) => rw [hf] at h; cases h
    | some (FileData.bytes b) => rw [hf] at h; cases h
  · intro t h
    simp [utils.read_ssml_file, h]

/-- Witness for claim C6: a one-file filesystem, probed at the existing
path and at a missing one. -/
theorem read_ssml_file_contract_witness :
    utils.read_ssml_file
      (fun q => if q = ["data", "ssmls", "in.ssml"] then some (FileData.text "<speak>hi</speak>") else none)
      ["data", "ssmls", "in.ssml"] = Except.ok "<speak>hi</speak>" ∧
    utils.read_ssml_file
      (fun q => if q = ["data", "ssmls", "in.ssml"] then some (FileData.text "<speak>hi</speak>") else none)
      ["missing.ssml"] =
      Except.error (TtsErr.fileNotFound "SSMLファイルが見つかりません: missing.ssml") := by
  constructor
  · exact (read_ssml_file_contract _ ["data", "ssmls", "in.ssml"]).2.2 "<speak>hi</speak>" (by decide)
  · exact ((read_ssml_file_contract _ ["missing.ssml"]).1 (by decide)).trans rfl

/-- Claim C8: writing `b1` and then `b2` to the same path leaves the file
holding exactly `b2` (truncation, not append), leaves every other file
untouched, and every missing parent directory of the path has been
created. -/
theorem writer_truncates (s : Sys) (p : PyPath) (b1 b2 : List Nat) :
    (write_audio (write_audio s p b1) p b2).files p = some (FileData.bytes b2) ∧
    (∀ q, q ≠ p → (write_audio (write_audio s p b1) p b2).files q = s.files q) ∧
    (∀ d, d ∈ ancestors p.dropLast → d ∈ (write_audio (write_audio s p b1) p b2).dirs) := by
  refine ⟨?_, ?_, ?_⟩
  · simp [write_audio, writeBytes, mkdirParents]
  · intro q hq
    simp [write_audio, writeBytes, mkdirParents, hq]
  · intro d hd
    simp only [write_audio, writeBytes, mkdirParents]
    exact List.mem_append_left _ hd

/-- Witness for claim C8 on a concrete path and two byte payloads. -/
theorem writer_truncates_witness :
    (write_audio (write_audio { files := fun _ => none, dirs := [] }
        ["data", "audios", "o.mp3"] [1, 2]) ["data", "audios", "o.mp3"] [7]).files
      ["data", "audios", "o.mp3"] = some (FileData.bytes [7]) ∧
    (write_audio (write_audio { files := fun _ => none, dirs := [] }
        ["data", "audios", "o.mp3"] [1, 2]) ["data", "audios", "o.mp3"] [7]).files
      ["other"] = none ∧
    ["data", "audios"] ∈ (write_audio (write_audio { files := fun _ => none, dirs := [] }
        ["data", "audios", "o.mp3"] [1, 2]) ["data", "audios", "o.mp3"] [7]).dirs := by
  have h := writer_truncates { files := fun _ => none, dirs := [] }
    ["data", "audios", "o.mp3"] [1, 2] [7]
  exact ⟨h.1, h.2.1 ["other"] (by decide), h.2.2 ["data", "audios"] (by decide)⟩

/-- Claim C7: for the Amazon variant, a provider response that omits the
audio payload raises a failure with the message that audio data could not
be obtained; the run exits with code 1, that message reaches stderr, and no
output file is written (the file map is unchanged; only the output
directory has been created). -/
theorem amazon_missing_payload (s : Sys) (input : PyPath) (output : Option PyPath)
    (model : String) (t : String) (h : s.files input = some (FileData.text t)) :
    (amazon_tts.main (Except.ok none) s input output model).exitCode = 1 ∧
    (amazon_tts.main (Except.ok none) s input output model).stderr =
      ["エラーが発生しました: 音声データが取得できませんでした"] ∧
    (amazon_tts.main (Except.ok none) s input output model).sys.files = s.files := by
  refine ⟨?_, ?_, ?_⟩ <;>
    simp [amazon_tts.main, runMain, utils.read_ssml_file, h,
      amazon_tts.synthesize_ssml, mkdirParents, mainErrMsg]

/-- Witness for claim C7: concrete run with a payload-free Polly
response. -/
theorem amazon_missing_payload_witness :
    (amazon_tts.main (Except.ok none)
      { files := fun q => if q = ["in.ssml"] then some (FileData.text "<speak>x</speak>") else none,
        dirs := [] }
      ["in.ssml"] none "Mizuki").exitCode = 1 ∧
    (amazon_tts.main (Except.ok none)
      { files := fun q => if q = ["in.ssml"] then some (FileData.text "<speak>x</speak>") else none,
        dirs := [] }
      ["in.ssml"] none "Mizuki").stderr =
      ["エラーが発生しました: 音声データが取得できませんでした"] ∧
    (amazon_tts.main (Except.ok none)
      { files := fun q => if q = ["in.ssml"] then some (FileData.text "<speak>x</speak>") else none,
        dirs := [] }
      ["in.ssml"] none "Mizuki").sys.files ["data", "audios", "in_Mizuki.mp3"] = none := by
  have h := amazon_missing_payload
    { files := fun q => if q = ["in.ssml"] then some (FileData.text "<speak>x</speak>") else none,
      dirs := [] }
    ["in.ssml"] none "Mizuki" "<speak>x</speak>" (by decide)
  exact ⟨h.1, h.2.1, by rw [h.2.2]; decide⟩

theorem interpretField_voice (v : List Char) :
    interpretField v voiceNameChars = Except.ok v :=
  rfl

theorem interpretField_voice_conv (v : List Char) :
    interpretField v "voice_name!s".data = Except.ok v :=
  rfl

theorem interpretField_voice_spec (v : List Char) :
    interpretField v "voice_name:".data = Except.ok v :=
  rfl

/-- Counterexample to claim C1 as stated: a provider cancellation is a
reported failure (the cancellation message is echoed), yet when its reason
is not `Error` the Azure variant raises nothing, reports the cancellation
on standard output rather than the error stream, and the process exits with
code 0. -/
theorem azure_cancellation_exits_zero :
    (azure_tts.main (some "k") (some "r")
      (AzureResult.canceled AzureCancelReason.cancelledByUser "")
      { files := fun q => if q = ["in.ssml"] then some (FileData.text "<speak>x</speak>") else none,
        dirs := [] }
      ["in.ssml"] none "ja-JP-NanamiNeural").exitCode = 0 ∧
    (azure_tts.main (some "k") (some "r")
      (AzureResult.canceled AzureCancelReason.cancelledByUser "")
      { files := fun q => if q = ["in.ssml"] then some (FileData.text "<speak>x</speak>") else none,
        dirs := [] }
      ["in.ssml"] none "ja-JP-NanamiNeural").stderr = [] ∧
    (azure_tts.main (some "k") (some "r")
      (AzureResult.canceled AzureCancelReason.cancelledByUser "")
      { files := fun q => if q = ["in.ssml"] then some (FileData.text "<speak>x</speak>") else none,
        dirs := [] }
      ["in.ssml"] none "ja-JP-NanamiNeural").stdout =
      ["SSMLファイルを読み込んでいます: in.ssml",
        "出力ファイル名: data/audios/in_ja-JP-NanamiNeural.mp3",
        "音声合成がキャンセルされました: CancellationReason.CancelledByUser",
        "✓ 処理が完了しました"] := by
  refine ⟨rfl, rfl, ?_⟩
  decide

/-- Claim C1, amended: every reported failure — missing input file, missing
Azure credentials, a provider error raised by the Google or Amazon call, a
missing Amazon audio payload, or an Azure cancellation whose reason is
`Error` with non-empty error details — exits with code 1 and the error
message on the error stream; a successful run exits with code 0 and writes
nothing to the error stream; but an Azure cancellation whose reason is not
`Error` or whose error details are empty also exits with code 0 (the
cancellation is echoed to standard output only). -/
theorem exit_code_discipline :
    (∀ (key region : Option String) (world : AzureResult) (s : Sys)
        (input : PyPath) (output : Option PyPath) (voice : String),
      s.files input = none →
      (azure_tts.main key region world s input output voice).exitCode = 1 ∧
      (azure_tts.main key region world s input output voice).stderr =
        ["エラー: " ++ ("SSMLファイルが見つかりません: " ++ pathStr input)]) ∧
    (∀ (world : Except String (List Nat)) (s : Sys)
        (input : PyPath) (output : Option PyPath) (model : String),
      s.files input = none →
      (google_tts.main world s input output model).exitCode = 1 ∧
      (google_tts.main world s input output model).stderr =
        ["エラー: " ++ ("SSMLファイルが見つかりません: " ++ pathStr input)]) ∧
    (∀ (world : Except String (Option (List Nat))) (s : Sys)
        (input : PyPath) (output : Option PyPath) (model : String),
      s.files input = none →
      (amazon_tts.main world s input output model).exitCode = 1 ∧
      (amazon_tts.main world s input output model).stderr =
        ["エラー: " ++ ("SSMLファイルが見つかりません: " ++ pathStr input)]) ∧
    (∀ (key region : Option String) (world : AzureResult) (s : Sys)
        (input : PyPath) (output : Option PyPath) (voice t : String),
      (truthy key = false ∨ truthy region = false) →
      s.files input = some (FileData.text t) →
      (azure_tts.main key region world s input output voice).exitCode = 1 ∧
      (azure_tts.main key region world s input output voice).stderr =
        ["エラーが発生しました: " ++ azureCredsMsg]) ∧
    (∀ (msg : String) (s : Sys) (input : PyPath) (output : Option PyPath) (model t : String),
      s.files input = some (FileData.text t) →
      (google_tts.main (Except.error msg) s input output model).exitCode = 1 ∧
      (google_tts.main (Except.error msg) s input output model).stderr =
        ["エラーが発生しました: " ++ msg]) ∧
    (∀ (msg : String) (s : Sys) (input : PyPath) (output : Option PyPath) (model t : String),
      s.files input = some (FileData.text t) →
      (amazon_tts.main (Except.error msg) s input output model).exitCode = 1 ∧
      (amazon_tts.main (Except.error msg) s input output model).stderr =
        ["エラーが発生しました: " ++ msg]) ∧
    (∀ (s : Sys) (input : PyPath) (output : Option PyPath) (model t : String),
      s.files input = some (FileData.text t) →
      (amazon_tts.main (Except.ok none) s input output model).exitCode = 1 ∧
      (amazon_tts.main (Except.ok none) s input output model).stderr =
        ["エラーが発生しました: " ++ "音声データが取得できませんでした"]) ∧
    (∀ (key region : Option String) (d : String) (s : Sys)
        (input : PyPath) (output : Option PyPath) (voice t : String) (f : List Char),
      truthy key = true → truthy region = true →
      s.files input = some (FileData.text t) →
      pyFormat voice.data t.data = Except.ok f →
      d.isEmpty = false →
      (azure_tts.main key region (AzureResult.canceled AzureCancelReason.error d)
        s input output voice).exitCode = 1 ∧
      (azure_tts.main key region (AzureResult.canceled AzureCancelReason.error d)
        s input output voice).stderr =
        ["エラーが発生しました: " ++ ("音声合成エラー: " ++ d)]) ∧
    (∀ (audio : List Nat) (s : Sys) (input : PyPath) (output : Option PyPath) (model t : String),
      s.files input = some (FileData.text t) →
      (google_tts.main (Except.ok audio) s input output model).exitCode = 0 ∧
      (google_tts.main (Except.ok audio) s input output model).stderr = []) ∧
    (∀ (audio : List Nat) (s : Sys) (input : PyPath) (output : Option PyPath) (model t : String),
      s.files input = some (FileData.text t) →
      (amazon_tts.main (Except.ok (some audio)) s input output model).exitCode = 0 ∧
      (amazon_tts.main (Except.ok (some audio)) s input output model).stderr = []) ∧
    (∀ (key region : Option String) (audio : List Nat) (s : Sys)
        (input : PyPath) (output : Option PyPath) (voice t : String) (f : List Char),
      truthy key = true → truthy region = true →
      s.files input = some (FileData.text t) →
      pyFormat voice.data t.data = Except.ok f →
      (azure_tts.main key region (AzureResult.completed audio)
        s input output voice).exitCode = 0 ∧
      (azure_tts.main key region (AzureResult.completed audio)
        s input output voice).stderr = []) ∧
    (∀ (key region : Option String) (r : AzureCancelReason) (d : String) (s : Sys)
        (input : PyPath) (output : Option PyPath) (voice t : String) (f : List Char),
      truthy key = true → truthy region = true →
      s.files input = some (FileData.text t) →
      pyFormat voice.data t.data = Except.ok f →
      (r ≠ AzureCancelReason.error ∨ d.isEmpty = true) →
      (azure_tts.main key region (AzureResult.canceled r d) s input output voice).exitCode = 0) := by
  refine ⟨?_, ?_, ?_, ?_, ?_, ?_, ?_, ?_, ?_, ?_, ?_, ?_⟩
  · intro key region world s input output voice h
    constructor <;>
      simp [azure_tts.main, runMain, utils.read_ssml_file, h, mainErrMsg]
  · intro world s input output model h
    constructor <;>
      simp [google_tts.main, runMain, utils.read_ssml_file, h, mainErrMsg]
  · intro world s input output model h
    constructor <;>
      simp [amazon_tts.main, runMain, utils.read_ssml_file, h, mainErrMsg]
  · intro key region world s input output voice t hcred hfile
    have hcond : (!truthy key || !truthy region) = true := by
      rcases hcred with h | h <;> simp [h]
    constructor <;>
      simp [azure_tts.main, runMain, utils.read_ssml_file, hfile,
        azure_tts.synthesize_ssml, hcond, mainErrMsg]
  · intro msg s input output model t hfile
    constructor <;>
      simp [google_tts.main, runMain, utils.read_ssml_file, hfile,
        google_tts.synthesize_ssml, mainErrMsg]
  · intro msg s input output model t hfile
    constructor <;>
      simp [amazon_tts.main, runMain, utils.read_ssml_file, hfile,
        amazon_tts.synthesize_ssml, mainErrMsg]
  · intro s input output model t hfile
    constructor <;>
      simp [amazon_tts.main, runMain, utils.read_ssml_file, hfile,
        amazon_tts.synthesize_ssml, mainErrMsg]
  · intro key region d s input output voice t f hk hr hfile hfmt hd
    constructor <;>
      simp [azure_tts.main, runMain, utils.read_ssml_file, hfile,
        azure_tts.synthesize_ssml, hk, hr, hfmt, hd, mainErrMsg]
  · intro audio s input output model t hfile
    constructor <;>
      simp [google_tts.main, runMain, utils.read_ssml_file, hfile,
        google_tts.synthesize_ssml]
  · intro audio s input output model t hfile
    constructor <;>
      simp [amazon_tts.main, runMain, utils.read_ssml_file, hfile,
        amazon_tts.synthesize_ssml]
  · intro key region audio s input output voice t f hk hr hfile hfmt
    constructor <;>
      simp [azure_tts.main, runMain, utils.read_ssml_file, hfile,
        azure_tts.synthesize_ssml, hk, hr, hfmt]
  · intro key region r d s input output voice t f hk hr hfile hfmt hcase
    rcases hcase with hcase | hcase
    · simp [azure_tts.main, runMain, utils.read_ssml_file, hfile,
        azure_tts.synthesize_ssml, hk, hr, hfmt, hcase]
    · by_cases hr2 : r = AzureCancelReason.error <;>
        simp [azure_tts.main, runMain, utils.read_ssml_file, hfile,
          azure_tts.synthesize_ssml, hk, hr, hfmt, hr2, hcase]

/-- Witness for claim C1 (amended) at concrete inputs: a missing input file
makes the Google variant exit 1 with the message on stderr, and an Azure
cancellation with reason `Error` and non-empty details makes the Azure
variant exit 1. -/
theorem exit_code_discipline_witness :
    (google_tts.main (Except.ok [1]) { files := fun _ => none, dirs := [] }
      ["nope.ssml"] none "ja-JP-Chirp3-HD-Zephyr").exitCode = 1 ∧
    (google_tts.main (Except.ok [1]) { files := fun _ => none, dirs := [] }
      ["nope.ssml"] none "ja-JP-Chirp3-HD-Zephyr").stderr =
      ["エラー: " ++ ("SSMLファイルが見つかりません: " ++ pathStr ["nope.ssml"])] ∧
    (azure_tts.main (some "k") (some "r")
      (AzureResult.canceled AzureCancelReason.error "boom")
      { files := fun q => if q = ["in.ssml"] then some (FileData.text "<speak>x</speak>") else none,
        dirs := [] }
      ["in.ssml"] none "ja-JP-NanamiNeural").exitCode = 1 ∧
    (azure_tts.main (some "k") (some "r")
      (AzureResult.canceled AzureCancelReason.error "boom")
      { files := fun q => if q = ["in.ssml"] then some (FileData.text "<speak>x</speak>") else none,
        dirs := [] }
      ["in.ssml"] none "ja-JP-NanamiNeural").stderr =
      ["エラーが発生しました: " ++ ("音声合成エラー: " ++ "boom")] := by
  have h1 := exit_code_discipline.2.1 (Except.ok [1])
    { files := fun _ => none, dirs := [] } ["nope.ssml"] none "ja-JP-Chirp3-HD-Zephyr" rfl
  have h2 := exit_code_discipline.2.2.2.2.2.2.2.1 (some "k") (some "r") "boom"
    { files := fun q => if q = ["in.ssml"] then some (FileData.text "<speak>x</speak>") else none,
      dirs := [] }
    ["in.ssml"] none "ja-JP-NanamiNeural" "<speak>x</speak>" "<speak>x</speak>".data
    (by decide) (by decide) (by decide) rfl rfl
  exact ⟨h1.1, h1.2, h2.1, h2.2⟩

/-- Counterexample to claim C2 as stated: an Azure run that fails (exit
code 1, cancellation with error details raised after the synthesizer was
pointed at the output file) leaves a zero-byte file at the resolved output
path, so a failed run does not always leave no output file. -/
theorem azure_failed_run_leaves_empty_file :
    (azure_tts.main (some "k") (some "r")
      (AzureResult.canceled AzureCancelReason.error "boom")
      { files := fun q => if q = ["in.ssml"] then some (FileData.text "<speak>x</speak>") else none,
        dirs := [] }
      ["in.ssml"] none "ja-JP-NanamiNeural").exitCode = 1 ∧
    (azure_tts.main (some "k") (some "r")
      (AzureResult.canceled AzureCancelReason.error "boom")
      { files := fun q => if q = ["in.ssml"] then some (FileData.text "<speak>x</speak>") else none,
        dirs := [] }
      ["in.ssml"] none "ja-JP-NanamiNeural").sys.files
      ["data", "audios", "in_ja-JP-NanamiNeural.mp3"] = some (FileData.bytes []) := by
  constructor
  · rfl
  · decide

/-- Claim C2, amended: for the Google and Amazon variants a failed run
leaves the file map unchanged (no output file is produced; a missing Amazon
payload only creates the output directory) and a successful run leaves the
resolved output path holding exactly the provider's audio bytes with every
other file untouched.  For the Azure variant the file is written by the
vendor SDK during synthesis: a completed result leaves the audio bytes at
the resolved path, but a provider cancellation — including the raising,
exit-code-1 case — leaves a zero-byte file there, and only the failures
raised before the synthesizer is constructed (missing credentials, format
error) leave the filesystem unchanged. -/
theorem output_file_states :
    (∀ (msg : String) (s : Sys) (input : PyPath) (output : Option PyPath) (model t : String),
      s.files input = some (FileData.text t) →
      (google_tts.main (Except.error msg) s input output model).sys = s) ∧
    (∀ (audio : List Nat) (s : Sys) (input : PyPath) (output : Option PyPath) (model t : String),
      s.files input = some (FileData.text t) →
      (google_tts.main (Except.ok audio) s input output model).sys.files
        (resolve input model output) = some (FileData.bytes audio) ∧
      (∀ q, q ≠ resolve input model output →
        (google_tts.main (Except.ok audio) s input output model).sys.files q = s.files q)) ∧
    (∀ (msg : String) (s : Sys) (input : PyPath) (output : Option PyPath) (model t : String),
      s.files input = some (FileData.text t) →
      (amazon_tts.main (Except.error msg) s input output model).sys = s) ∧
    (∀ (s : Sys) (input : PyPath) (output : Option PyPath) (model t : String),
      s.files input = some (FileData.text t) →
      (amazon_tts.main (Except.ok none) s input output model).sys.files = s.files) ∧
    (∀ (audio : List Nat) (s : Sys) (input : PyPath) (output : Option PyPath) (model t : String),
      s.files input = some (FileData.text t) →
      (amazon_tts.main (Except.ok (some audio)) s input output model).sys.files
        (resolve input model output) = some (FileData.bytes audio) ∧
      (∀ q, q ≠ resolve input model output →
        (amazon_tts.main (Except.ok (some audio)) s input output model).sys.files q =
          s.files q)) ∧
    (∀ (key region : Option String) (audio : List Nat) (s : Sys)
        (input : PyPath) (output : Option PyPath) (voice t : String) (f : List Char),
      truthy key = true → truthy region = true →
      s.files input = some (FileData.text t) →
      pyFormat voice.data t.data = Except.ok f →
      (azure_tts.main key region (AzureResult.completed audio)
        s input output voice).sys.files (resolve input voice output) =
        some (FileData.bytes audio)) ∧
    (∀ (key region : Option String) (r : AzureCancelReason) (d : String) (s : Sys)
        (input : PyPath) (output : Option PyPath) (voice t : String) (f : List Char),
      truthy key = true → truthy region = true →
      s.files input = some (FileData.text t) →
      pyFormat voice.data t.data = Except.ok f →
      (azure_tts.main key region (AzureResult.canceled r d)
        s input output voice).sys.files (resolve input voice output) =
        some (FileData.bytes [])) ∧
    (∀ (key region : Option String) (world : AzureResult) (s : Sys)
        (input : PyPath) (output : Option PyPath) (voice t : String),
      (truthy key = false ∨ truthy region = false) →
      s.files input = some (FileData.text t) →
      (azure_tts.main key region world s input output voice).sys = s) := by
  refine ⟨?_, ?_, ?_, ?_, ?_, ?_, ?_, ?_⟩
  · intro msg s input output model t hfile
    simp [google_tts.main, runMain, utils.read_ssml_file, hfile, google_tts.synthesize_ssml]
  · intro audio s input output model t hfile
    constructor
    · simp [google_tts.main, runMain, utils.read_ssml_file, hfile,
        google_tts.synthesize_ssml, write_audio, writeBytes, mkdirParents]
    · intro q hq
      simp [google_tts.main, runMain, utils.read_ssml_file, hfile,
        google_tts.synthesize_ssml, write_audio, writeBytes, mkdirParents, hq]
  · intro msg s input output model t hfile
    simp [amazon_tts.main, runMain, utils.read_ssml_file, hfile, amazon_tts.synthesize_ssml]
  · intro s input output model t hfile
    simp [amazon_tts.main, runMain, utils.read_ssml_file, hfile,
      amazon_tts.synthesize_ssml, mkdirParents]
  · intro audio s input output model t hfile
    constructor
    · simp [amazon_tts.main, runMain, utils.read_ssml_file, hfile,
        amazon_tts.synthesize_ssml, writeBytes, mkdirParents]
    · intro q hq
      simp [amazon_tts.main, runMain, utils.read_ssml_file, hfile,
        amazon_tts.synthesize_ssml, writeBytes, mkdirParents, hq]
  · intro key region audio s input output voice t f hk hr hfile hfmt
    simp [azure_tts.main, runMain, utils.read_ssml_file, hfile,
      azure_tts.synthesize_ssml, hk, hr, hfmt, writeBytes, mkdirParents]
  · intro key region r d s input output voice t f hk hr hfile hfmt
    by_cases hr2 : r = AzureCancelReason.error <;> by_cases hd : d.isEmpty <;>
      simp [azure_tts.main, runMain, utils.read_ssml_file, hfile,
        azure_tts.synthesize_ssml, hk, hr, hfmt, hr2, hd, writeBytes, mkdirParents]
  · intro key region world s input output voice t hcred hfile
    have hcond : (!truthy key || !truthy region) = true := by
      rcases hcred with h | h <;> simp [h]
    simp [azure_tts.main, runMain, utils.read_ssml_file, hfile,
      azure_tts.synthesize_ssml, hcond]

/-- Witness for claim C2 (amended) at concrete inputs: a failed Google run
leaves the filesystem unchanged, and a successful Google run leaves exactly
the provider's bytes at the resolved output path. -/
theorem output_file_states_witness :
    (google_tts.main (Except.error "network down")
      { files := fun q => if q = ["in.ssml"] then some (FileData.text "<speak>x</speak>") else none,
        dirs := [] }
      ["in.ssml"] none "ja-JP-Chirp3-HD-Zephyr").sys.files
      ["data", "audios", "in_ja-JP-Chirp3-HD-Zephyr.mp3"] = none ∧
    (google_tts.main (Except.ok [5, 6])
      { files := fun q => if q = ["in.ssml"] then some (FileData.text "<speak>x</speak>") else none,
        dirs := [] }
      ["in.ssml"] none "ja-JP-Chirp3-HD-Zephyr").sys.files
      ["data", "audios", "in_ja-JP-Chirp3-HD-Zephyr.mp3"] = some (FileData.bytes [5, 6]) ∧
    (google_tts.main (Except.ok [5, 6])
      { files := fun q => if q = ["in.ssml"] then some (FileData.text "<speak>x</speak>") else none,
        dirs := [] }
      ["in.ssml"] none "ja-JP-Chirp3-HD-Zephyr").sys.files ["in.ssml"] =
      some (FileData.text "<speak>x</speak>") := by
  have h1 := output_file_states.1 "network down"
    { files := fun q => if q = ["in.ssml"] then some (FileData.text "<speak>x</speak>") else none,
      dirs := [] }
    ["in.ssml"] none "ja-JP-Chirp3-HD-Zephyr" "<speak>x</speak>" (by decide)
  have h2 := output_file_states.2.1 [5, 6]
    { files := fun q => if q = ["in.ssml"] then some (FileData.text "<speak>x</speak>") else none,
      dirs := [] }
    ["in.ssml"] none "ja-JP-Chirp3-HD-Zephyr" "<speak>x</speak>" (by decide)
  refine ⟨by rw [h1]; decide, ?_, ?_⟩
  · exact (show (["data", "audios", "in_ja-JP-Chirp3-HD-Zephyr.mp3"] : PyPath) =
      resolve ["in.ssml"] "ja-JP-Chirp3-HD-Zephyr" none by decide) ▸ h2.1
  · exact ((h2.2 ["in.ssml"] (by decide)).trans (by decide))
